import Mathlib

/-
Verification of the RPC client orchestration layer in
src/extension/src/client.ts (class GradleTasksClient).

The class is embedded shallowly: every method becomes a pure Lean function
from the client state and the relevant external inputs (the decoded frames
a stream delivered before terminating, the reply of a unary call) to the
new client state together with the list of observable side effects the
method performs, in order.  Side effects on the status bar item, the
logger, the caller supplied output sink, the cancellation bookkeeping
registry, the transport and the server handle are recorded as constructors
of the Effect type.
-/

namespace Gradle

/-- Shallow model of the JavaScript String trim method used by the frame
handlers: drop whitespace characters from both ends of the string. -/
def jsTrim (s : String) : String :=
  String.mk (((s.data.dropWhile Char.isWhitespace).reverse.dropWhile Char.isWhitespace).reverse)

/-- A transport or service error as delivered by the gRPC layer: a message
plus an optional structured details field (err.details in the source). -/
structure Err where
  message : String
  details : Option String
deriving DecidableEq, Repr

/-- Severity levels of the logger sink (logger.info, logger.error,
logger.debug in the source). -/
inductive LogLevel
  | info
  | error
  | debug
deriving DecidableEq, Repr

/-- Output.OutputType from the protobuf definitions: the channel of an
output frame. -/
inductive OutputType
  | stdout
  | stderr
deriving DecidableEq, Repr

/-- An Output frame: a channel and a message. -/
structure Output where
  outputType : OutputType
  message : String
deriving DecidableEq, Repr

/-- A Progress frame: a human readable message. -/
structure Progress where
  message : String
deriving DecidableEq, Repr

/-- A Cancelled frame: the task identity it concerns plus a message. -/
structure Cancelled where
  task : String
  projectDir : String
  message : String
deriving DecidableEq, Repr

/-- The build payload carried by a GetBuildResult frame.  Its internals are
irrelevant to the client, which forwards it opaquely; a single numeric tag
keeps distinct payloads distinguishable. -/
structure GradleBuild where
  payload : Nat
deriving DecidableEq, Repr

/-- GetBuildReply.KindCase: the discriminated union of frames a getBuild
stream can deliver. -/
inductive GetBuildReply
  | progress (p : Progress)
  | output (o : Output)
  | cancelled (c : Cancelled)
  | getBuildResult (build : GradleBuild)
deriving DecidableEq, Repr

/-- RunTaskReply.KindCase: the discriminated union of frames a runTask
stream can deliver. -/
inductive RunTaskReply
  | progress (p : Progress)
  | output (o : Output)
  | cancelled (c : Cancelled)
deriving DecidableEq, Repr

/-- Reply of the unary CancelRunTask call. -/
structure CancelRunTaskReply where
  message : String
  taskRunning : Bool
deriving DecidableEq, Repr

/-- Reply of the unary CancelRunTasks call. -/
structure CancelRunTasksReply where
  message : String
deriving DecidableEq, Repr

/-- Reply of the unary CancelGetBuilds call. -/
structure CancelGetBuildsReply where
  message : String
deriving DecidableEq, Repr

/-- The terminal outcome of a server streaming call: the decoded frames
delivered in wire order, followed either by a normal end event or by a
stream error. -/
inductive StreamOutcome (α : Type)
  | ended (events : List α)
  | errored (events : List α) (e : Err)
deriving DecidableEq, Repr

/-- One observable side effect of the client, in the order performed.
statusSetText, statusShow and statusHide act on the status bar item;
log acts on the logger sink; onOutputCall invokes the caller supplied
output callback of runTask; registryNotify is the cancellation bookkeeping
notification for a task identity; transportClose closes the gRPC client;
showRestartMessage asks the server handle to prompt a restart;
connectAttempt is one invocation of connectToServer reaching the transport
construction and readiness wait; fireOnConnect fires the one shot
connected event; emitterDispose disposes the onConnect event emitter. -/
inductive Effect
  | log (lvl : LogLevel) (msg : String)
  | statusSetText (text : String)
  | statusShow
  | statusHide
  | onOutputCall (o : Output)
  | registryNotify (task : String) (projectDir : String)
  | transportClose
  | showRestartMessage
  | connectAttempt
  | fireOnConnect
  | emitterDispose
deriving DecidableEq, Repr

/-- The mutable fields of GradleTasksClient: the possibly absent transport
handle (grpcClient), the retry counter (connectTries), its bound
(maxConnectTries), and the per task identity already notified markers of
the cancellation bookkeeping (held by the tasks module, see
handleCancelledTask below).  The transport handle carries no data the
client inspects, so it is modelled by Option Unit. -/
structure ClientState where
  grpcClient : Option Unit
  connectTries : Nat
  maxConnectTries : Nat
  notifiedTasks : List (String × String)
deriving DecidableEq, Repr

/-- The field initialisers of GradleTasksClient: no transport yet,
connectTries = 0, maxConnectTries = 5, and no identity marked. -/
def initialState : ClientState :=
  { grpcClient := none
    connectTries := 0
    maxConnectTries := 5
    notifiedTasks := [] }

/-- A client state whose transport handle is live, as after a successful
connect, with the counters still at their initial values. -/
def connectedState : ClientState :=
  { grpcClient := some ()
    connectTries := 0
    maxConnectTries := 5
    notifiedTasks := [] }

/-- Modelled from the spec: handleCancelledTask is imported by client.ts
from the tasks module, whose source is not part of this tree.  Per the
spec, cancellation bookkeeping for a task identity must not fire twice for
the same cancellation episode, and implementations must track a per task
identity already notified marker.  Accordingly this model notifies the
bookkeeping registry for (task, projectDir) only when that identity is not
yet marked, and marks it. -/
def handleCancelledTask (task projectDir : String) (s : ClientState) :
    ClientState × List Effect :=
  if (task, projectDir) ∈ s.notifiedTasks then (s, [])
  else ({ s with notifiedTasks := (task, projectDir) :: s.notifiedTasks },
        [Effect.registryNotify task projectDir])

/-- handleProgress: trim the message; when non empty, write it to the
status bar item text behind the spinner prefix; otherwise do nothing. -/
def handleProgress (s : ClientState) (progress : Progress) :
    ClientState × List Effect :=
  let messageStr := jsTrim progress.message
  if messageStr ≠ "" then
    (s, [Effect.statusSetText ("$(sync~spin) Gradle: " ++ messageStr)])
  else (s, [])

/-- handleOutput: trim the message; when non empty, log it at error
severity for the stderr channel and info severity for the stdout channel;
otherwise do nothing. -/
def handleOutput (s : ClientState) (output : Output) :
    ClientState × List Effect :=
  let logMessage := jsTrim output.message
  if logMessage ≠ "" then
    match output.outputType with
    | OutputType.stderr => (s, [Effect.log LogLevel.error logMessage])
    | OutputType.stdout => (s, [Effect.log LogLevel.info logMessage])
  else (s, [])

/-- handleRunTaskCancelled: log the cancellation message at info severity,
then run the cancellation bookkeeping for the embedded task identity. -/
def handleRunTaskCancelled (s : ClientState) (cancelled : Cancelled) :
    ClientState × List Effect :=
  let step := handleCancelledTask cancelled.task cancelled.projectDir s
  (step.1, Effect.log LogLevel.info ("Task cancelled: " ++ cancelled.message) :: step.2)

/-- handleGetBuildCancelled: log the cancellation message at info severity;
build discovery has no task identity, so no bookkeeping runs. -/
def handleGetBuildCancelled (s : ClientState) (cancelled : Cancelled) :
    ClientState × List Effect :=
  (s, [Effect.log LogLevel.info ("Get build cancelled: " ++ cancelled.message)])

/-- The data handler of the getBuild stream: dispatch one decoded frame on
its kind case, threading the local build variable that a GetBuildResult
frame assigns. -/
def getBuildDataHandler (s : ClientState) (build : Option GradleBuild)
    (reply : GetBuildReply) : ClientState × Option GradleBuild × List Effect :=
  match reply with
  | GetBuildReply.progress p =>
    let step := handleProgress s p
    (step.1, build, step.2)
  | GetBuildReply.output o =>
    let step := handleOutput s o
    (step.1, build, step.2)
  | GetBuildReply.cancelled c =>
    let step := handleGetBuildCancelled s c
    (step.1, build, step.2)
  | GetBuildReply.getBuildResult b => (s, some b, [])

/-- Apply the getBuild data handler to each delivered frame in wire order,
accumulating the effects. -/
def getBuildLoop (s : ClientState) (build : Option GradleBuild) :
    List GetBuildReply → ClientState × Option GradleBuild × List Effect
  | [] => (s, build, [])
  | reply :: rest =>
    let step := getBuildDataHandler s build reply
    let next := getBuildLoop step.1 step.2.1 rest
    (next.1, next.2.1, step.2.2 ++ next.2.2)

/-- Message text of the refreshing status indicator that getBuild shows. -/
def refreshingText : String := "$(sync~spin) Gradle: Refreshing Tasks"

/-- Outcome of the promise getBuild returns to its caller.  resolved is a
normal resolution (none stands for the void value); rejectedErr is a
rejection carrying a transport error, present in the vocabulary so that
spec statements about rejection can be expressed; nullDereference is the
runtime type error thrown by invoking getBuild on the null grpcClient
through the non null assertion. -/
inductive GetBuildOutcome
  | resolved (build : Option GradleBuild)
  | rejectedErr (e : Err)
  | nullDereference
deriving DecidableEq, Repr

/-- Whether a getBuild outcome is a rejection carried to the caller. -/
def GetBuildOutcome.isRejection : GetBuildOutcome → Bool
  | GetBuildOutcome.rejectedErr _ => true
  | _ => false

/-- getBuild: set the refreshing status text and show the status item,
then open the stream on the non null asserted grpcClient.  When the handle
is null the assertion throws before the try block, so the promise rejects
with the type error and the status item is never hidden.  Otherwise the
data handler runs on each frame; on a normal end the promise resolves with
the last observed build (or void); on a stream error the catch block logs
the error with its details field when present, else its message, and the
function resolves void; the finally block hides the status item on both
paths. -/
def getBuild (s : ClientState) (projectFolder : String)
    (stream : StreamOutcome GetBuildReply) :
    GetBuildOutcome × ClientState × List Effect :=
  let preamble := [Effect.statusSetText refreshingText, Effect.statusShow]
  match s.grpcClient with
  | none => (GetBuildOutcome.nullDereference, s, preamble)
  | some _ =>
    match stream with
    | StreamOutcome.ended events =>
      let run := getBuildLoop s none events
      (GetBuildOutcome.resolved run.2.1, run.1,
        preamble ++ run.2.2 ++ [Effect.statusHide])
    | StreamOutcome.errored events e =>
      let run := getBuildLoop s none events
      (GetBuildOutcome.resolved none, run.1,
        preamble ++ run.2.2 ++
          [Effect.log LogLevel.error
            ("Error getting build for " ++ projectFolder ++ ": " ++
              e.details.getD e.message),
           Effect.statusHide])

/-- Outcome of the promise runTask returns to its caller. -/
inductive RunTaskOutcome
  | resolved
  | nullDereference
deriving DecidableEq, Repr

/-- The data handler of the runTask stream: progress frames go through
handleProgress, output frames go to the caller supplied output callback,
cancelled frames go through handleRunTaskCancelled. -/
def runTaskDataHandler (s : ClientState) (reply : RunTaskReply) :
    ClientState × List Effect :=
  match reply with
  | RunTaskReply.progress p => handleProgress s p
  | RunTaskReply.output o => (s, [Effect.onOutputCall o])
  | RunTaskReply.cancelled c => handleRunTaskCancelled s c

/-- Apply the runTask data handler to each delivered frame in wire order,
accumulating the effects. -/
def runTaskLoop (s : ClientState) :
    List RunTaskReply → ClientState × List Effect
  | [] => (s, [])
  | reply :: rest =>
    let step := runTaskDataHandler s reply
    let next := runTaskLoop step.1 rest
    (next.1, step.2 ++ next.2)

/-- runTask: show the status item, then open the stream on the non null
asserted grpcClient (throwing the type error when the handle is null).
The data handler runs on each frame; on a normal end the completion is
logged at info severity; on a stream error the catch block logs the error
with its details field when present, else its message.  Either way the
promise resolves and the finally block hides the status item.  The script
argument is task.definition.script of the vscode task. -/
def runTask (s : ClientState) (projectFolder script : String)
    (stream : StreamOutcome RunTaskReply) :
    RunTaskOutcome × ClientState × List Effect :=
  match s.grpcClient with
  | none => (RunTaskOutcome.nullDereference, s, [Effect.statusShow])
  | some _ =>
    match stream with
    | StreamOutcome.ended events =>
      let run := runTaskLoop s events
      (RunTaskOutcome.resolved, run.1,
        Effect.statusShow :: run.2 ++
          [Effect.log LogLevel.info ("Completed task " ++ script),
           Effect.statusHide])
    | StreamOutcome.errored events e =>
      let run := runTaskLoop s events
      (RunTaskOutcome.resolved, run.1,
        Effect.statusShow :: run.2 ++
          [Effect.log LogLevel.error
            ("Error running task: " ++ e.details.getD e.message),
           Effect.statusHide])

/-- Stands for the runtime type error raised when a method is invoked on
the null grpcClient through the non null assertion.  It carries no
structured details field. -/
def nullDerefError : Err :=
  { message := "TypeError: grpcClient is null", details := none }

/-- cancelRunTask: issue the unary cancel call on the non null asserted
grpcClient (when the handle is null, the throw inside the promise executor
rejects the promise and the catch block logs the type error).  On a
successful reply, log its message at debug severity; when the reply says
the task was not running, run the cancellation bookkeeping for the
identity, since the server will emit no Cancelled frame for it.  On a call
error, log it with its details field when present, else its message. -/
def cancelRunTask (s : ClientState) (projectFolder task : String)
    (reply : Except Err CancelRunTaskReply) : ClientState × List Effect :=
  match s.grpcClient with
  | none =>
    (s, [Effect.log LogLevel.error
      ("Error cancelling running task: " ++
        nullDerefError.details.getD nullDerefError.message)])
  | some _ =>
    match reply with
    | Except.error err =>
      (s, [Effect.log LogLevel.error
        ("Error cancelling running task: " ++ err.details.getD err.message)])
    | Except.ok r =>
      if r.taskRunning then (s, [Effect.log LogLevel.debug r.message])
      else
        let step := handleCancelledTask task projectFolder s
        (step.1, Effect.log LogLevel.debug r.message :: step.2)

/-- cancelRunTasks: issue the unary cancel all call; log the reply message
at debug severity, or the error with its details field when present, else
its message.  No per task bookkeeping runs here. -/
def cancelRunTasks (s : ClientState)
    (reply : Except Err CancelRunTasksReply) : ClientState × List Effect :=
  match s.grpcClient with
  | none =>
    (s, [Effect.log LogLevel.error
      ("Error cancelling running tasks: " ++
        nullDerefError.details.getD nullDerefError.message)])
  | some _ =>
    match reply with
    | Except.error err =>
      (s, [Effect.log LogLevel.error
        ("Error cancelling running tasks: " ++ err.details.getD err.message)])
    | Except.ok r => (s, [Effect.log LogLevel.debug r.message])

/-- cancelGetBuilds: issue the unary cancel call for build discovery; log
the reply message at debug severity, or the error with its details field
when present, else its message. -/
def cancelGetBuilds (s : ClientState)
    (reply : Except Err CancelGetBuildsReply) : ClientState × List Effect :=
  match s.grpcClient with
  | none =>
    (s, [Effect.log LogLevel.error
      ("Error cancelling get builds: " ++
        nullDerefError.details.getD nullDerefError.message)])
  | some _ =>
    match reply with
    | Except.error err =>
      (s, [Effect.log LogLevel.error
        ("Error cancelling get builds: " ++ err.details.getD err.message)])
    | Except.ok r => (s, [Effect.log LogLevel.debug r.message])

/-- connectToServer: construct a new transport handle for the endpoint and
start the readiness wait whose callback is handleClientReady.  The
connectAttempt effect records one such invocation.  The constructor catch
branch of the source (construction itself throwing) is outside the
behaviour studied here, where construction succeeds and failures are
readiness failures delivered to handleClientReady. -/
def connectToServer (s : ClientState) : ClientState × List Effect :=
  ({ s with grpcClient := some () }, [Effect.connectAttempt])

/-- handleConnectError: while the retry counter is below its bound,
increment it, close the failed transport and invoke connectToServer again;
once the bound is reached, log the connection error and ask the server
handle to show the restart prompt, with no further attempt. -/
def handleConnectError (s : ClientState) (e : Err) : ClientState × List Effect :=
  if s.connectTries < s.maxConnectTries then
    let s1 := { s with connectTries := s.connectTries + 1 }
    let closeEffs : List Effect :=
      match s1.grpcClient with
      | some _ => [Effect.transportClose]
      | none => []
    let next := connectToServer s1
    (next.1, closeEffs ++ next.2)
  else
    (s, [Effect.log LogLevel.error
          ("Error connecting to gradle server: " ++ e.message),
         Effect.showRestartMessage])

/-- handleClientReady: the readiness callback.  With an error it defers to
handleConnectError; without one it logs the connection at info severity
and fires the one shot onConnect event. -/
def handleClientReady (s : ClientState) (err : Option Err) :
    ClientState × List Effect :=
  match err with
  | some e => handleConnectError s e
  | none =>
    (s, [Effect.log LogLevel.info "Gradle client connected to server",
         Effect.fireOnConnect])

/-- handleServerReady: show the connecting status text, log at debug
severity, and invoke connectToServer. -/
def handleServerReady (s : ClientState) : ClientState × List Effect :=
  let next := connectToServer s
  (next.1,
    [Effect.statusSetText "$(sync~spin) Gradle: Connecting",
     Effect.statusShow,
     Effect.log LogLevel.debug "Gradle client connecting to server"] ++ next.2)

/-- dispose: close the transport handle when present and dispose the
onConnect event emitter.  The handle itself is not cleared. -/
def dispose (s : ClientState) : ClientState × List Effect :=
  let closeEffs : List Effect :=
    match s.grpcClient with
    | some _ => [Effect.transportClose]
    | none => []
  (s, closeEffs ++ [Effect.emitterDispose])

/-- Deliver n consecutive readiness failures, each with error e, to the
client: each delivery is one invocation of the handleClientReady callback
with an error, exactly what a failing connect attempt produces. -/
def deliverFailures (e : Err) : Nat → ClientState → ClientState × List Effect
  | 0, s => (s, [])
  | n + 1, s =>
    let step := handleClientReady s (some e)
    let rest := deliverFailures e n step.1
    (rest.1, step.2 ++ rest.2)

/-- A full connect episode in which every attempt fails deterministically
with error e: the server ready event triggers the first attempt, then n
readiness failures are delivered in sequence. -/
def connectEpisodeAllFail (s : ClientState) (e : Err) (failures : Nat) :
    ClientState × List Effect :=
  let start := handleServerReady s
  let rest := deliverFailures e failures start.1
  (rest.1, start.2 ++ rest.2)

/-- Whether an effect is one invocation of connectToServer. -/
def Effect.isConnectAttempt : Effect → Bool
  | Effect.connectAttempt => true
  | _ => false

/-- Whether an effect is the restart prompt on the server handle. -/
def Effect.isShowRestart : Effect → Bool
  | Effect.showRestartMessage => true
  | _ => false

/-- Whether an effect closes the transport handle. -/
def Effect.isTransportClose : Effect → Bool
  | Effect.transportClose => true
  | _ => false

/-- Whether an effect is a write to the logger sink. -/
def Effect.isLogWrite : Effect → Bool
  | Effect.log _ _ => true
  | _ => false

/-- Whether an effect is the bookkeeping registry notification for the
given task identity. -/
def Effect.isRegistryNotifyFor (task projectDir : String) : Effect → Bool
  | Effect.registryNotify t p => t == task && p == projectDir
  | _ => false

/-- The last build payload observed among the delivered frames of a
getBuild stream, if any: a later GetBuildResult frame overwrites an
earlier one. -/
def observedResult : List GetBuildReply → Option GradleBuild
  | [] => none
  | reply :: rest =>
    match observedResult rest with
    | some b => some b
    | none =>
      match reply with
      | GetBuildReply.getBuildResult b => some b
      | _ => none

/-- Whether a getBuild frame is a GetBuildResult frame. -/
def GetBuildReply.isResultFrame : GetBuildReply → Bool
  | GetBuildReply.getBuildResult _ => true
  | _ => false

end Gradle

namespace Gradle

/-- handleProgress never changes the client state. -/
theorem handleProgress_state (s : ClientState) (p : Progress) :
    (handleProgress s p).1 = s := by
  by_cases h : jsTrim p.message = "" <;> simp [handleProgress, h]

/-- handleOutput never changes the client state. -/
theorem handleOutput_state (s : ClientState) (o : Output) :
    (handleOutput s o).1 = s := by
  by_cases h : jsTrim o.message = "" <;>
    cases ho : o.outputType <;> simp [handleOutput, h, ho]

/-- The cancellation bookkeeping touches only the notified markers: the
transport handle and the retry counters are preserved. -/
theorem handleCancelledTask_counters (task projectDir : String) (s : ClientState) :
    (handleCancelledTask task projectDir s).1.grpcClient = s.grpcClient ∧
    (handleCancelledTask task projectDir s).1.connectTries = s.connectTries ∧
    (handleCancelledTask task projectDir s).1.maxConnectTries = s.maxConnectTries := by
  unfold handleCancelledTask
  split <;> exact ⟨rfl, rfl, rfl⟩

/-- The getBuild data handler never changes the client state. -/
theorem getBuildDataHandler_state (s : ClientState) (build : Option GradleBuild)
    (reply : GetBuildReply) : (getBuildDataHandler s build reply).1 = s := by
  cases reply with
  | progress p => exact handleProgress_state s p
  | output o => exact handleOutput_state s o
  | cancelled c => rfl
  | getBuildResult b => rfl

/-- The getBuild frame loop never changes the client state: none of the
frame handlers of a build discovery stream writes a client field. -/
theorem getBuildLoop_state (events : List GetBuildReply) :
    ∀ (s : ClientState) (build : Option GradleBuild),
      (getBuildLoop s build events).1 = s := by
  induction events with
  | nil => intro s build; rfl
  | cons reply rest ih =>
    intro s build
    calc (getBuildLoop s build (reply :: rest)).1
        = (getBuildLoop (getBuildDataHandler s build reply).1
            (getBuildDataHandler s build reply).2.1 rest).1 := rfl
      _ = (getBuildDataHandler s build reply).1 := ih _ _
      _ = s := getBuildDataHandler_state s build reply

/-- The build value accumulated by the getBuild frame loop is the last
observed result payload, falling back to the initial accumulator. -/
theorem getBuildLoop_build (events : List GetBuildReply) :
    ∀ (s : ClientState) (build : Option GradleBuild),
      (getBuildLoop s build events).2.1 =
        (match observedResult events with
         | some b => some b
         | none => build) := by
  induction events with
  | nil => intro s build; rfl
  | cons reply rest ih =>
    intro s build
    cases reply with
    | progress p =>
      simp only [getBuildLoop, getBuildDataHandler, observedResult, ih]
      cases observedResult rest <;> rfl
    | output o =>
      simp only [getBuildLoop, getBuildDataHandler, observedResult, ih]
      cases observedResult rest <;> rfl
    | cancelled c =>
      simp only [getBuildLoop, getBuildDataHandler, observedResult, ih]
      cases observedResult rest <;> rfl
    | getBuildResult b =>
      simp only [getBuildLoop, getBuildDataHandler, observedResult, ih]
      cases observedResult rest <;> rfl

/-- A stream without any result frame observes no result payload. -/
theorem observedResult_eq_none (events : List GetBuildReply)
    (h : ∀ r ∈ events, r.isResultFrame = false) :
    observedResult events = none := by
  induction events with
  | nil => rfl
  | cons reply rest ih =>
    have hr := h reply (List.mem_cons_self reply rest)
    have hrest : ∀ r ∈ rest, r.isResultFrame = false :=
      fun r hm => h r (List.mem_cons_of_mem reply hm)
    cases reply with
    | progress p => simp [observedResult, ih hrest]
    | output o => simp [observedResult, ih hrest]
    | cancelled c => simp [observedResult, ih hrest]
    | getBuildResult b => simp [GetBuildReply.isResultFrame] at hr

/-- The runTask data handler preserves the transport handle and the retry
counters. -/
theorem runTaskDataHandler_counters (s : ClientState) (reply : RunTaskReply) :
    (runTaskDataHandler s reply).1.grpcClient = s.grpcClient ∧
    (runTaskDataHandler s reply).1.connectTries = s.connectTries ∧
    (runTaskDataHandler s reply).1.maxConnectTries = s.maxConnectTries := by
  cases reply with
  | progress p =>
    have h : (runTaskDataHandler s (RunTaskReply.progress p)).1 = s :=
      handleProgress_state s p
    rw [h]
    exact ⟨rfl, rfl, rfl⟩
  | output o => exact ⟨rfl, rfl, rfl⟩
  | cancelled c => exact handleCancelledTask_counters c.task c.projectDir s

/-- The runTask frame loop preserves the transport handle and the retry
counters: only the notified markers can change (through cancellation
bookkeeping). -/
theorem runTaskLoop_preserves (events : List RunTaskReply) :
    ∀ s : ClientState,
      (runTaskLoop s events).1.grpcClient = s.grpcClient ∧
      (runTaskLoop s events).1.connectTries = s.connectTries ∧
      (runTaskLoop s events).1.maxConnectTries = s.maxConnectTries := by
  induction events with
  | nil => intro s; exact ⟨rfl, rfl, rfl⟩
  | cons reply rest ih =>
    intro s
    have hstep := runTaskDataHandler_counters s reply
    have hrest := ih (runTaskDataHandler s reply).1
    exact ⟨hrest.1.trans hstep.1, hrest.2.1.trans hstep.2.1,
      hrest.2.2.trans hstep.2.2⟩

/-- A runTask stream consisting only of output frames sends each frame to
the caller supplied callback and performs no other effect, leaving the
state untouched. -/
theorem runTaskLoop_outputs (os : List Output) :
    ∀ s : ClientState,
      runTaskLoop s (os.map RunTaskReply.output) = (s, os.map Effect.onOutputCall) := by
  induction os with
  | nil => intro s; rfl
  | cons o rest ih =>
    intro s
    simp [runTaskLoop, runTaskDataHandler, ih s]

/-- Exhausting the retry bound: starting from a live attempt with k retries
left (connectTries + k = maxConnectTries), delivering k + 1 readiness
failures performs exactly k further connect attempts, raises the restart
prompt exactly once, and leaves the retry counter at its bound with the
transport handle still set. -/
theorem deliverFailures_exhaust (e : Err) :
    ∀ (k : Nat) (s : ClientState),
      s.grpcClient = some () → s.connectTries + k = s.maxConnectTries →
      (deliverFailures e (k + 1) s).2.countP Effect.isConnectAttempt = k ∧
      (deliverFailures e (k + 1) s).2.countP Effect.isShowRestart = 1 ∧
      (deliverFailures e (k + 1) s).1.connectTries = s.maxConnectTries ∧
      (deliverFailures e (k + 1) s).1.maxConnectTries = s.maxConnectTries ∧
      (deliverFailures e (k + 1) s).1.grpcClient = some () := by
  intro k
  induction k with
  | zero =>
    intro s hg ht
    have hmax : s.connectTries = s.maxConnectTries := by omega
    have hlt : ¬ s.connectTries < s.maxConnectTries := by omega
    simp [deliverFailures, handleClientReady, handleConnectError, hlt, hmax,
      Effect.isConnectAttempt, Effect.isShowRestart, hg]
  | succ k ih =>
    intro s hg ht
    have hlt : s.connectTries < s.maxConnectTries := by omega
    have hstep :
        handleClientReady s (some e)
          = ({ s with connectTries := s.connectTries + 1, grpcClient := some () },
             [Effect.transportClose, Effect.connectAttempt]) := by
      simp [handleClientReady, handleConnectError, hlt, connectToServer, hg]
    have ihs := ih { s with connectTries := s.connectTries + 1, grpcClient := some () }
      rfl (by simp; omega)
    have hunfold :
        deliverFailures e (k + 1 + 1) s
          = ((deliverFailures e (k + 1)
                { s with connectTries := s.connectTries + 1, grpcClient := some () }).1,
             [Effect.transportClose, Effect.connectAttempt] ++
               (deliverFailures e (k + 1)
                 { s with connectTries := s.connectTries + 1, grpcClient := some () }).2) := by
      conv_lhs => rw [deliverFailures]
      rw [hstep]
    rw [hunfold]
    refine ⟨?_, ?_, ihs.2.2.1, ihs.2.2.2.1, ihs.2.2.2.2⟩
    · have hb := ihs.1
      simp [List.countP_append, List.countP_cons, List.countP_nil,
        Effect.isConnectAttempt] at hb ⊢
      omega
    · have hb := ihs.2.1
      simp [List.countP_append, List.countP_cons, List.countP_nil,
        Effect.isShowRestart] at hb ⊢
      omega

/-- C1 counterexample: starting from the initial state, where
maxConnectTries = 5, a connect episode in which every attempt fails
deterministically performs 6 connect attempts, not 5, before showing the
restart prompt exactly once.  The sixth failure is delivered to the sixth
attempt and raises the fatal signal without a further attempt. -/
theorem connect_attempts_six_not_five :
    (connectEpisodeAllFail initialState
        { message := "connect failed", details := none } 6).2.countP
      Effect.isConnectAttempt = 6 ∧
    (connectEpisodeAllFail initialState
        { message := "connect failed", details := none } 6).2.countP
      Effect.isShowRestart = 1 := by
  decide

/-- C1 amended: with every connect attempt failing deterministically,
connect is attempted exactly maxConnectTries + 1 times (the initial
attempt plus maxConnectTries retries, hence 6 times at the default bound
of 5) before the fatal signal is raised, the restart prompt is invoked
exactly once, and afterwards no further automatic retry occurs: any later
failure goes straight to the restart prompt with no new attempt. -/
theorem connect_episode_attempts_and_restart (s : ClientState) (e e2 : Err)
    (h : s.connectTries = 0) :
    (connectEpisodeAllFail s e (s.maxConnectTries + 1)).2.countP
        Effect.isConnectAttempt = s.maxConnectTries + 1 ∧
    (connectEpisodeAllFail s e (s.maxConnectTries + 1)).2.countP
        Effect.isShowRestart = 1 ∧
    (handleConnectError (connectEpisodeAllFail s e (s.maxConnectTries + 1)).1 e2).2.countP
        Effect.isConnectAttempt = 0 ∧
    (handleConnectError (connectEpisodeAllFail s e (s.maxConnectTries + 1)).1 e2).2.countP
        Effect.isShowRestart = 1 := by
  have hstart :
      handleServerReady s
        = ({ s with grpcClient := some () },
           [Effect.statusSetText "$(sync~spin) Gradle: Connecting",
            Effect.statusShow,
            Effect.log LogLevel.debug "Gradle client connecting to server",
            Effect.connectAttempt]) := by
    simp [handleServerReady, connectToServer]
  have hex := deliverFailures_exhaust e s.maxConnectTries
    { s with grpcClient := some () } rfl (by simp [h])
  have hunfold :
      connectEpisodeAllFail s e (s.maxConnectTries + 1)
        = ((deliverFailures e (s.maxConnectTries + 1) { s with grpcClient := some () }).1,
           [Effect.statusSetText "$(sync~spin) Gradle: Connecting",
            Effect.statusShow,
            Effect.log LogLevel.debug "Gradle client connecting to server",
            Effect.connectAttempt] ++
             (deliverFailures e (s.maxConnectTries + 1) { s with grpcClient := some () }).2) := by
    rw [connectEpisodeAllFail, hstart]
  rw [hunfold]
  have hfinal : ¬ (deliverFailures e (s.maxConnectTries + 1)
      { s with grpcClient := some () }).1.connectTries
      < (deliverFailures e (s.maxConnectTries + 1)
      { s with grpcClient := some () }).1.maxConnectTries := by
    have h1 := hex.2.2.1
    have h2 := hex.2.2.2.1
    simp only [h1, h2]
    simp
  refine ⟨?_, ?_, ?_, ?_⟩
  · have hb := hex.1
    simp [List.countP_append, List.countP_cons, List.countP_nil,
      Effect.isConnectAttempt] at hb ⊢
    omega
  · have hb := hex.2.1
    simp [List.countP_append, List.countP_cons, List.countP_nil,
      Effect.isShowRestart] at hb ⊢
    omega
  · simp [handleConnectError, hfinal, Effect.isConnectAttempt]
  · simp [handleConnectError, hfinal, Effect.isShowRestart]

/-- C1 witness: the amended episode theorem applied at the initial state
with a concrete deterministic failure: 6 attempts, one restart prompt, and
no attempt on a later failure. -/
theorem connect_episode_attempts_and_restart_witness :
    (connectEpisodeAllFail initialState
        { message := "boom", details := none } (initialState.maxConnectTries + 1)).2.countP
      Effect.isConnectAttempt = initialState.maxConnectTries + 1 ∧
    (connectEpisodeAllFail initialState
        { message := "boom", details := none } (initialState.maxConnectTries + 1)).2.countP
      Effect.isShowRestart = 1 ∧
    (handleConnectError (connectEpisodeAllFail initialState
        { message := "boom", details := none }
        (initialState.maxConnectTries + 1)).1 { message := "later", details := none }).2.countP
      Effect.isConnectAttempt = 0 ∧
    (handleConnectError (connectEpisodeAllFail initialState
        { message := "boom", details := none }
        (initialState.maxConnectTries + 1)).1 { message := "later", details := none }).2.countP
      Effect.isShowRestart = 1 :=
  connect_episode_attempts_and_restart initialState
    { message := "boom", details := none } { message := "later", details := none } rfl

/-- C10: the retry counter never decreases across any client entry point,
is left unchanged by a successful readiness callback and by a new server
ready episode (so it is never reset), and once it has reached the bound a
failed connect attempt performs no further attempt and goes straight to
the restart prompt. -/
theorem connect_tries_monotone_never_reset (s : ClientState) (e : Err)
    (err : Option Err) (pf script task : String)
    (gstream : StreamOutcome GetBuildReply) (rstream : StreamOutcome RunTaskReply)
    (r1 : Except Err CancelRunTaskReply) (r2 : Except Err CancelRunTasksReply)
    (r3 : Except Err CancelGetBuildsReply) :
    s.connectTries ≤ (connectToServer s).1.connectTries ∧
    s.connectTries ≤ (handleServerReady s).1.connectTries ∧
    s.connectTries ≤ (handleClientReady s err).1.connectTries ∧
    s.connectTries ≤ (handleConnectError s e).1.connectTries ∧
    (handleClientReady s none).1.connectTries = s.connectTries ∧
    (handleServerReady s).1.connectTries = s.connectTries ∧
    (getBuild s pf gstream).2.1.connectTries = s.connectTries ∧
    (runTask s pf script rstream).2.1.connectTries = s.connectTries ∧
    (cancelRunTask s pf task r1).1.connectTries = s.connectTries ∧
    (cancelRunTasks s r2).1.connectTries = s.connectTries ∧
    (cancelGetBuilds s r3).1.connectTries = s.connectTries ∧
    (dispose s).1.connectTries = s.connectTries ∧
    (s.maxConnectTries ≤ s.connectTries →
      (handleConnectError s e).2.countP Effect.isConnectAttempt = 0 ∧
      Effect.showRestartMessage ∈ (handleConnectError s e).2) := by
  have hce : ∀ e3 : Err, s.connectTries ≤ (handleConnectError s e3).1.connectTries := by
    intro e3
    by_cases hlt : s.connectTries < s.maxConnectTries <;>
      simp [handleConnectError, connectToServer, hlt]
  have hget : (getBuild s pf gstream).2.1.connectTries = s.connectTries := by
    cases hgc : s.grpcClient with
    | none => simp [getBuild, hgc]
    | some u =>
      cases gstream with
      | ended events => simp [getBuild, hgc, getBuildLoop_state]
      | errored events e4 => simp [getBuild, hgc, getBuildLoop_state]
  have hrun : (runTask s pf script rstream).2.1.connectTries = s.connectTries := by
    cases hgc : s.grpcClient with
    | none => simp [runTask, hgc]
    | some u =>
      cases rstream with
      | ended events => simp [runTask, hgc, (runTaskLoop_preserves events s).2.1]
      | errored events e4 => simp [runTask, hgc, (runTaskLoop_preserves events s).2.1]
  have hcrt : (cancelRunTask s pf task r1).1.connectTries = s.connectTries := by
    cases hgc : s.grpcClient with
    | none => simp [cancelRunTask, hgc]
    | some u =>
      cases r1 with
      | error err1 => simp [cancelRunTask, hgc]
      | ok rr =>
        cases hb : rr.taskRunning <;>
          simp [cancelRunTask, hgc, hb, (handleCancelledTask_counters task pf s).2.1]
  refine ⟨le_refl _, le_refl _, ?_, hce e, rfl, rfl, hget, hrun, hcrt, ?_, ?_, rfl, ?_⟩
  · cases err with
    | none => exact le_refl _
    | some e3 => exact hce e3
  · cases hgc : s.grpcClient with
    | none => simp [cancelRunTasks, hgc]
    | some u =>
      cases r2 with
      | error err2 => simp [cancelRunTasks, hgc]
      | ok rr => simp [cancelRunTasks, hgc]
  · cases hgc : s.grpcClient with
    | none => simp [cancelGetBuilds, hgc]
    | some u =>
      cases r3 with
      | error err3 => simp [cancelGetBuilds, hgc]
      | ok rr => simp [cancelGetBuilds, hgc]
  · intro hle
    have hnlt : ¬ s.connectTries < s.maxConnectTries := by omega
    constructor
    · simp [handleConnectError, hnlt, Effect.isConnectAttempt]
    · simp [handleConnectError, hnlt]

/-- C10 witness: the monotonicity and exhaustion theorem applied at a
concrete exhausted state: the retry counter equals the bound, so a failed
attempt performs no retry and shows the restart prompt; the successful
readiness callback leaves the counter unchanged. -/
theorem connect_tries_monotone_never_reset_witness :
    (handleConnectError
        { grpcClient := some (), connectTries := 5, maxConnectTries := 5,
          notifiedTasks := [] } { message := "x", details := none }).2.countP
      Effect.isConnectAttempt = 0 ∧
    Effect.showRestartMessage ∈ (handleConnectError
        { grpcClient := some (), connectTries := 5, maxConnectTries := 5,
          notifiedTasks := [] } { message := "x", details := none }).2 ∧
    (handleClientReady
        { grpcClient := some (), connectTries := 5, maxConnectTries := 5,
          notifiedTasks := [] } none).1.connectTries = 5 := by
  have h := connect_tries_monotone_never_reset
    { grpcClient := some (), connectTries := 5, maxConnectTries := 5, notifiedTasks := [] }
    { message := "x", details := none } none "p" "s" "t"
    (StreamOutcome.ended []) (StreamOutcome.ended [])
    (Except.ok { message := "m", taskRunning := true })
    (Except.ok { message := "m" }) (Except.ok { message := "m" })
  have hterm := h.2.2.2.2.2.2.2.2.2.2.2.2 (by decide)
  exact ⟨hterm.1, hterm.2, h.2.2.2.2.1⟩

/-- C2: within one cancellation episode of a task identity (the identity
not yet marked as notified), the bookkeeping registry is notified exactly
once, whether the trigger is a cancelRunTask reply with taskRunning =
false, an asynchronous Cancelled stream event, or both in either order:
the per identity already notified marker suppresses the second firing. -/
theorem cancel_bookkeeping_at_most_once (s : ClientState)
    (task pf rmsg cmsg : String)
    (hm : (task, pf) ∉ s.notifiedTasks) (hg : s.grpcClient = some ()) :
    ((cancelRunTask s pf task (Except.ok { message := rmsg, taskRunning := false })).2 ++
        (handleRunTaskCancelled
          (cancelRunTask s pf task (Except.ok { message := rmsg, taskRunning := false })).1
          { task := task, projectDir := pf, message := cmsg }).2).countP
      (Effect.isRegistryNotifyFor task pf) = 1 ∧
    ((handleRunTaskCancelled s { task := task, projectDir := pf, message := cmsg }).2 ++
        (cancelRunTask
          (handleRunTaskCancelled s { task := task, projectDir := pf, message := cmsg }).1
          pf task (Except.ok { message := rmsg, taskRunning := false })).2).countP
      (Effect.isRegistryNotifyFor task pf) = 1 ∧
    ((cancelRunTask s pf task (Except.ok { message := rmsg, taskRunning := false })).2).countP
      (Effect.isRegistryNotifyFor task pf) = 1 ∧
    ((handleRunTaskCancelled s { task := task, projectDir := pf, message := cmsg }).2).countP
      (Effect.isRegistryNotifyFor task pf) = 1 := by
  have hmem : (task, pf) ∈ (task, pf) :: s.notifiedTasks := List.mem_cons_self _ _
  refine ⟨?_, ?_, ?_, ?_⟩
  · simp [cancelRunTask, handleRunTaskCancelled, handleCancelledTask, hg, hm, hmem,
      List.countP_append, List.countP_cons, Effect.isRegistryNotifyFor]
  · have hrc :
        handleRunTaskCancelled s { task := task, projectDir := pf, message := cmsg }
          = ({ s with notifiedTasks := (task, pf) :: s.notifiedTasks },
             [Effect.log LogLevel.info ("Task cancelled: " ++ cmsg),
              Effect.registryNotify task pf]) := by
      simp [handleRunTaskCancelled, handleCancelledTask, hm]
    rw [hrc]
    simp [cancelRunTask, handleCancelledTask, hg, hmem,
      List.countP_append, List.countP_cons, Effect.isRegistryNotifyFor]
  · simp [cancelRunTask, handleCancelledTask, hg, hm,
      List.countP_cons, Effect.isRegistryNotifyFor]
  · simp [handleRunTaskCancelled, handleCancelledTask, hm,
      List.countP_cons, Effect.isRegistryNotifyFor]

/-- C2 witness: both triggers fired in sequence for a fresh identity on a
connected client notify the registry exactly once in total, and each
single trigger alone notifies it exactly once. -/
theorem cancel_bookkeeping_at_most_once_witness :
    ((cancelRunTask connectedState "/p" "t1"
          (Except.ok { message := "m", taskRunning := false })).2 ++
        (handleRunTaskCancelled
          (cancelRunTask connectedState "/p" "t1"
            (Except.ok { message := "m", taskRunning := false })).1
          { task := "t1", projectDir := "/p", message := "stopped" }).2).countP
      (Effect.isRegistryNotifyFor "t1" "/p") = 1 :=
  (cancel_bookkeeping_at_most_once connectedState "t1" "/p" "m" "stopped"
    (by decide) rfl).1

/-- C3 counterexample: a getBuild stream that terminates with a transport
error carrying a structured detail makes the caller facing call resolve
void after logging; the call does not reject, so the error is not
surfaced to the caller of getBuild via rejection. -/
theorem stream_error_resolves_not_rejects_cex :
    (getBuild connectedState "p"
        (StreamOutcome.errored [] { message := "boom", details := some "detail failure" })).1
      = GetBuildOutcome.resolved none ∧
    ((getBuild connectedState "p"
        (StreamOutcome.errored [] { message := "boom", details := some "detail failure" })).1).isRejection
      = false := by
  decide

/-- C3 amended: if an open getBuild or runTask stream terminates with a
transport error, the inner stream promise rejects and the call itself
consumes the rejection: it logs an error message carrying the structured
detail when present, else the error message, and the caller facing call
resolves (void for getBuild); the rejection is not propagated to the
caller. -/
theorem stream_error_logged_and_resolved (s : ClientState) (pf script : String)
    (gevents : List GetBuildReply) (revents : List RunTaskReply) (e : Err)
    (h : s.grpcClient = some ()) :
    (getBuild s pf (StreamOutcome.errored gevents e)).1 = GetBuildOutcome.resolved none ∧
    ((getBuild s pf (StreamOutcome.errored gevents e)).1).isRejection = false ∧
    Effect.log LogLevel.error
        ("Error getting build for " ++ pf ++ ": " ++ e.details.getD e.message)
      ∈ (getBuild s pf (StreamOutcome.errored gevents e)).2.2 ∧
    (runTask s pf script (StreamOutcome.errored revents e)).1 = RunTaskOutcome.resolved ∧
    Effect.log LogLevel.error ("Error running task: " ++ e.details.getD e.message)
      ∈ (runTask s pf script (StreamOutcome.errored revents e)).2.2 := by
  refine ⟨?_, ?_, ?_, ?_, ?_⟩
  · simp [getBuild, h]
  · simp [getBuild, h, GetBuildOutcome.isRejection]
  · simp [getBuild, h]
  · simp [runTask, h]
  · simp [runTask, h]

/-- C3 witness: the amended stream error theorem at a concrete connected
state, empty frame prefix and an error with a structured detail. -/
theorem stream_error_logged_and_resolved_witness :
    (getBuild connectedState "proj"
        (StreamOutcome.errored [] { message := "m", details := some "d" })).1
      = GetBuildOutcome.resolved none ∧
    Effect.log LogLevel.error ("Error getting build for " ++ "proj" ++ ": " ++
        (Option.getD (some "d") "m"))
      ∈ (getBuild connectedState "proj"
          (StreamOutcome.errored [] { message := "m", details := some "d" })).2.2 :=
  ⟨(stream_error_logged_and_resolved connectedState "proj" "sc" [] []
      { message := "m", details := some "d" } rfl).1,
   (stream_error_logged_and_resolved connectedState "proj" "sc" [] []
      { message := "m", details := some "d" } rfl).2.2.1⟩

/-- C4 counterexample: a runTask stream delivering one stdout Output frame
with message B invokes the caller supplied sink with the frame but writes
nothing to the log sink for it: the only log write of the call is the
completion message, and no log effect carries B. -/
theorem run_task_output_not_logged_cex :
    (runTask connectedState "p" "t"
        (StreamOutcome.ended [RunTaskReply.output
          { outputType := OutputType.stdout, message := "B" }])).2.2
      = [Effect.statusShow,
         Effect.onOutputCall { outputType := OutputType.stdout, message := "B" },
         Effect.log LogLevel.info "Completed task t", Effect.statusHide] ∧
    Effect.log LogLevel.info "B" ∉ (runTask connectedState "p" "t"
        (StreamOutcome.ended [RunTaskReply.output
          { outputType := OutputType.stdout, message := "B" }])).2.2 ∧
    Effect.log LogLevel.error "B" ∉ (runTask connectedState "p" "t"
        (StreamOutcome.ended [RunTaskReply.output
          { outputType := OutputType.stdout, message := "B" }])).2.2 := by
  decide

/-- C4 amended: every Output event received on a runTask stream is
forwarded to the caller supplied onOutput sink only; it is not routed
through handleOutput, so nothing is written to the log sink for it.  A
stream of output frames produces exactly the status show, one callback
invocation per frame in order, the completion log and the status hide. -/
theorem run_task_output_to_callback_only (s : ClientState) (pf script : String)
    (os : List Output) (h : s.grpcClient = some ()) :
    (runTask s pf script (StreamOutcome.ended (os.map RunTaskReply.output))).2.2
      = Effect.statusShow :: os.map Effect.onOutputCall ++
          [Effect.log LogLevel.info ("Completed task " ++ script), Effect.statusHide] ∧
    (os.map Effect.onOutputCall).countP Effect.isLogWrite = 0 := by
  constructor
  · simp [runTask, h, runTaskLoop_outputs os s]
  · induction os with
    | nil => rfl
    | cons o rest ih => simp [Effect.isLogWrite, ih]

/-- C4 witness: the amended theorem at a concrete connected state with two
output frames. -/
theorem run_task_output_to_callback_only_witness :
    (runTask connectedState "p" "t"
        (StreamOutcome.ended ([{ outputType := OutputType.stdout, message := "B" },
          { outputType := OutputType.stderr, message := "E" }].map RunTaskReply.output))).2.2
      = Effect.statusShow ::
          [{ outputType := OutputType.stdout, message := "B" },
           { outputType := OutputType.stderr, message := "E" }].map Effect.onOutputCall ++
          [Effect.log LogLevel.info ("Completed task " ++ "t"), Effect.statusHide] :=
  (run_task_output_to_callback_only connectedState "p" "t"
    [{ outputType := OutputType.stdout, message := "B" },
     { outputType := OutputType.stderr, message := "E" }] rfl).1

/-- C5: a Progress or Output frame whose message is whitespace only (empty
after trimming) produces no status update and no log write at all; a non
whitespace message is forwarded trimmed: Progress to the status text
behind the spinner prefix, Output to the log sink at error severity for
the stderr channel and info severity for the stdout channel. -/
theorem whitespace_frames_no_side_effects (s : ClientState) (p : Progress)
    (o : Output) :
    (jsTrim p.message = "" → handleProgress s p = (s, [])) ∧
    (jsTrim o.message = "" → handleOutput s o = (s, [])) ∧
    (jsTrim p.message ≠ "" →
      handleProgress s p
        = (s, [Effect.statusSetText ("$(sync~spin) Gradle: " ++ jsTrim p.message)])) ∧
    (jsTrim o.message ≠ "" → o.outputType = OutputType.stderr →
      handleOutput s o = (s, [Effect.log LogLevel.error (jsTrim o.message)])) ∧
    (jsTrim o.message ≠ "" → o.outputType = OutputType.stdout →
      handleOutput s o = (s, [Effect.log LogLevel.info (jsTrim o.message)])) := by
  refine ⟨?_, ?_, ?_, ?_, ?_⟩
  · intro h; simp [handleProgress, h]
  · intro h; simp [handleOutput, h]
  · intro h; simp [handleProgress, h]
  · intro h ho; simp [handleOutput, h, ho]
  · intro h ho; simp [handleOutput, h, ho]

/-- C5 witness: a whitespace only progress frame and output frame produce
no effects; a non whitespace stderr output frame is logged trimmed at
error severity. -/
theorem whitespace_frames_no_side_effects_witness :
    handleProgress connectedState { message := "   " } = (connectedState, []) ∧
    handleOutput connectedState
        { outputType := OutputType.stderr, message := " \t " } = (connectedState, []) ∧
    handleOutput connectedState
        { outputType := OutputType.stderr, message := " oops " }
      = (connectedState, [Effect.log LogLevel.error "oops"]) :=
  ⟨(whitespace_frames_no_side_effects connectedState { message := "   " }
      { outputType := OutputType.stderr, message := " \t " }).1 (by decide),
   (whitespace_frames_no_side_effects connectedState { message := "   " }
      { outputType := OutputType.stderr, message := " \t " }).2.1 (by decide),
   by
    have h := (whitespace_frames_no_side_effects connectedState { message := "   " }
      { outputType := OutputType.stderr, message := " oops " }).2.2.2.1
      (by decide) rfl
    simpa [(by decide : jsTrim " oops " = "oops")] using h⟩

/-- C6: when a getBuild stream ends normally, the call resolves with the
last observed result payload if any GetBuildResult frame was delivered,
and resolves with the void value when the stream ends without an observed
result frame. -/
theorem get_build_resolves_observed_result (s : ClientState) (pf : String)
    (events : List GetBuildReply) (h : s.grpcClient = some ()) :
    (getBuild s pf (StreamOutcome.ended events)).1
      = GetBuildOutcome.resolved (observedResult events) ∧
    ((∀ r ∈ events, r.isResultFrame = false) →
      (getBuild s pf (StreamOutcome.ended events)).1
        = GetBuildOutcome.resolved none) := by
  have hmain : (getBuild s pf (StreamOutcome.ended events)).1
      = GetBuildOutcome.resolved (observedResult events) := by
    have hb := getBuildLoop_build events s none
    have : (getBuildLoop s none events).2.1 = observedResult events := by
      rw [hb]
      cases observedResult events <;> rfl
    simp [getBuild, h, this]
  exact ⟨hmain, fun hnone => by rw [hmain, observedResult_eq_none events hnone]⟩

/-- C6 witness: a stream delivering progress, output and a result frame
resolves with that payload; a stream of only progress frames resolves
void. -/
theorem get_build_resolves_observed_result_witness :
    (getBuild connectedState "p"
        (StreamOutcome.ended [GetBuildReply.progress { message := "A" },
          GetBuildReply.output { outputType := OutputType.stdout, message := "B" },
          GetBuildReply.getBuildResult { payload := 7 }])).1
      = GetBuildOutcome.resolved (some { payload := 7 }) ∧
    (getBuild connectedState "p"
        (StreamOutcome.ended [GetBuildReply.progress { message := "A" }])).1
      = GetBuildOutcome.resolved none :=
  ⟨(get_build_resolves_observed_result connectedState "p"
      [GetBuildReply.progress { message := "A" },
       GetBuildReply.output { outputType := OutputType.stdout, message := "B" },
       GetBuildReply.getBuildResult { payload := 7 }] rfl).1,
   (get_build_resolves_observed_result connectedState "p"
      [GetBuildReply.progress { message := "A" }] rfl).2 (by decide)⟩

/-- C7 counterexample: on a client holding a live transport handle, two
consecutive dispose calls invoke the transport close twice in total, not
once: dispose does not clear the handle, so the second call closes it
again. -/
theorem dispose_twice_closes_twice_cex :
    ((dispose connectedState).2 ++ (dispose (dispose connectedState).1).2).countP
      Effect.isTransportClose = 2 := by
  decide

/-- C7 amended: calling dispose twice produces no error on the second
call; the client state is unchanged and the second call performs exactly
the effects of the first, so the transport close is invoked once per call,
twice in total, rather than exactly once. -/
theorem dispose_twice_effects (s : ClientState) (h : s.grpcClient = some ()) :
    dispose s = (s, [Effect.transportClose, Effect.emitterDispose]) ∧
    dispose (dispose s).1 = (s, [Effect.transportClose, Effect.emitterDispose]) ∧
    ((dispose s).2 ++ (dispose (dispose s).1).2).countP Effect.isTransportClose = 2 := by
  have hd : dispose s = (s, [Effect.transportClose, Effect.emitterDispose]) := by
    simp [dispose, h]
  refine ⟨hd, ?_, ?_⟩
  · rw [hd]
    exact hd
  · rw [hd]
    simp [dispose, h, List.countP_append, List.countP_cons, Effect.isTransportClose]

/-- C7 witness: the dispose theorem at the concrete connected state. -/
theorem dispose_twice_effects_witness :
    dispose connectedState
      = (connectedState, [Effect.transportClose, Effect.emitterDispose]) ∧
    dispose (dispose connectedState).1
      = (connectedState, [Effect.transportClose, Effect.emitterDispose]) :=
  ⟨(dispose_twice_effects connectedState rfl).1,
   (dispose_twice_effects connectedState rfl).2.1⟩

/-- C8 counterexample: getBuild invoked on the initial state, whose
transport handle is absent, dereferences the null handle through the non
null assertion: the outcome is the runtime null dereference, not a typed
fail fast error, and the status item shown beforehand is never hidden. -/
theorem null_client_dereference_cex :
    (getBuild initialState "p" (StreamOutcome.ended [])).1
      = GetBuildOutcome.nullDereference ∧
    (runTask initialState "p" "t" (StreamOutcome.ended [])).1
      = RunTaskOutcome.nullDereference ∧
    (getBuild initialState "p" (StreamOutcome.ended [])).2.2
      = [Effect.statusSetText refreshingText, Effect.statusShow] := by
  decide

/-- C8 amended: every public operation invoked while no transport handle
is live dereferences the absent handle through the non null assertion
instead of failing fast with a typed error: getBuild and runTask surface
the resulting runtime type error to their caller (getBuild also skipping
its status cleanup), while the three cancel operations catch it inside
their own try block and log it. -/
theorem disconnected_operations_null_dereference (s : ClientState)
    (pf script task : String) (gstream : StreamOutcome GetBuildReply)
    (rstream : StreamOutcome RunTaskReply) (r1 : Except Err CancelRunTaskReply)
    (r2 : Except Err CancelRunTasksReply) (r3 : Except Err CancelGetBuildsReply)
    (h : s.grpcClient = none) :
    (getBuild s pf gstream).1 = GetBuildOutcome.nullDereference ∧
    (runTask s pf script rstream).1 = RunTaskOutcome.nullDereference ∧
    cancelRunTask s pf task r1
      = (s, [Effect.log LogLevel.error
          ("Error cancelling running task: " ++ nullDerefError.message)]) ∧
    cancelRunTasks s r2
      = (s, [Effect.log LogLevel.error
          ("Error cancelling running tasks: " ++ nullDerefError.message)]) ∧
    cancelGetBuilds s r3
      = (s, [Effect.log LogLevel.error
          ("Error cancelling get builds: " ++ nullDerefError.message)]) := by
  refine ⟨?_, ?_, ?_, ?_, ?_⟩
  · simp [getBuild, h]
  · simp [runTask, h]
  · simp [cancelRunTask, h, nullDerefError]
  · simp [cancelRunTasks, h, nullDerefError]
  · simp [cancelGetBuilds, h, nullDerefError]

/-- C8 witness: the disconnected operations theorem at the initial state
with concrete arguments. -/
theorem disconnected_operations_null_dereference_witness :
    (getBuild initialState "proj" (StreamOutcome.ended [])).1
      = GetBuildOutcome.nullDereference ∧
    cancelRunTask initialState "proj" "task" (Except.ok { message := "m", taskRunning := true })
      = (initialState, [Effect.log LogLevel.error
          ("Error cancelling running task: " ++ nullDerefError.message)]) :=
  ⟨(disconnected_operations_null_dereference initialState "proj" "sc" "task"
      (StreamOutcome.ended []) (StreamOutcome.ended [])
      (Except.ok { message := "m", taskRunning := true })
      (Except.ok { message := "m" }) (Except.ok { message := "m" }) rfl).1,
   (disconnected_operations_null_dereference initialState "proj" "sc" "task"
      (StreamOutcome.ended []) (StreamOutcome.ended [])
      (Except.ok { message := "m", taskRunning := true })
      (Except.ok { message := "m" }) (Except.ok { message := "m" }) rfl).2.2.1⟩

/-- C9: on a connected client the getBuild effects start by setting the
refreshing status text and showing the status item, before any frame is
handled, and end with hiding the status item, on every terminal path of
the stream (normal end with or without a result, and stream error alike);
the indicator handling changes no client state: getBuild returns the
state it was given. -/
theorem get_build_status_indicator_cleanup (s : ClientState) (pf : String)
    (stream : StreamOutcome GetBuildReply) (h : s.grpcClient = some ()) :
    (getBuild s pf stream).2.2.take 2
      = [Effect.statusSetText refreshingText, Effect.statusShow] ∧
    (getBuild s pf stream).2.2.getLast? = some Effect.statusHide ∧
    (getBuild s pf stream).2.1 = s := by
  cases stream with
  | ended events =>
    refine ⟨?_, ?_, ?_⟩
    · simp [getBuild, h]
    · simp only [getBuild, h]
      rw [List.getLast?_concat]
    · simp [getBuild, h, getBuildLoop_state]
  | errored events e =>
    refine ⟨?_, ?_, ?_⟩
    · simp [getBuild, h]
    · simp only [getBuild, h]
      have hsplit :
          ([Effect.statusSetText refreshingText, Effect.statusShow] ++
              (getBuildLoop s none events).2.2 ++
              [Effect.log LogLevel.error
                ("Error getting build for " ++ pf ++ ": " ++ e.details.getD e.message),
               Effect.statusHide])
            = (([Effect.statusSetText refreshingText, Effect.statusShow] ++
                (getBuildLoop s none events).2.2 ++
                [Effect.log LogLevel.error
                  ("Error getting build for " ++ pf ++ ": " ++ e.details.getD e.message)]) ++
               [Effect.statusHide]) := by
        simp
      rw [hsplit, List.getLast?_concat]
    · simp [getBuild, h, getBuildLoop_state]

/-- C9 witness: the status indicator theorem at the concrete connected
state on an erroring stream: the first two effects show the indicator and
the final effect hides it, with the state unchanged. -/
theorem get_build_status_indicator_cleanup_witness :
    (getBuild connectedState "p"
        (StreamOutcome.errored [GetBuildReply.progress { message := "A" }]
          { message := "boom", details := none })).2.2.take 2
      = [Effect.statusSetText refreshingText, Effect.statusShow] ∧
    (getBuild connectedState "p"
        (StreamOutcome.errored [GetBuildReply.progress { message := "A" }]
          { message := "boom", details := none })).2.2.getLast?
      = some Effect.statusHide ∧
    (getBuild connectedState "p"
        (StreamOutcome.errored [GetBuildReply.progress { message := "A" }]
          { message := "boom", details := none })).2.1 = connectedState :=
  get_build_status_indicator_cleanup connectedState "p"
    (StreamOutcome.errored [GetBuildReply.progress { message := "A" }]
      { message := "boom", details := none }) rfl

end Gradle
